import Mathlib

/-!
A shallow embedding of the mb-worker request router (`src/worker.js`) —
a Cloudflare-Worker style HTTP dispatcher fronting a key-value blob store —
together with theorems checking the natural-language specification's claims
about it.

The embedding models:
* JSON values and a strict JSON parser (for `JSON.parse` of the configured
  allowlist and of request bodies via `safeJson`);
* the JavaScript semantics the handlers rely on (truthiness, property
  access on parsed JSON values, `??`, template-string display);
* the storage collaborator (`list`/`get`/`put`) as an association list;
* every route handler and the top-level `fetch` dispatcher, where a thrown
  JavaScript exception is an `Except.error` and a delivered `Response` is
  `Except.ok`.
-/

namespace MBWorker

/-- A JSON value as produced by `JSON.parse`.  Numbers keep their source
lexeme (no claim in this development depends on numeric magnitude, only on
zero-ness for truthiness, which the lexeme determines). -/
inductive JsonVal where
  | null
  | bool (b : Bool)
  | num (lex : String)
  | str (s : String)
  | arr (elems : List JsonVal)
  | obj (fields : List (String × JsonVal))
deriving Repr

/-- Insert-or-overwrite into an object's field list, keeping the original
position of an existing key: this is how JavaScript objects treat duplicate
keys during `JSON.parse` (last value wins, first position kept). -/
def objUpsert (fs : List (String × JsonVal)) (k : String) (v : JsonVal) :
    List (String × JsonVal) :=
  if fs.any (fun p => p.1 == k) then
    fs.map (fun p => if p.1 == k then (k, v) else p)
  else fs ++ [(k, v)]

/-- JSON whitespace (the four characters `JSON.parse` skips). -/
def isJsonWs (c : Char) : Bool :=
  c = ' ' ∨ c = '\t' ∨ c = '\n' ∨ c = '\r'

def skipWs : List Char → List Char
  | [] => []
  | c :: cs => if isJsonWs c then skipWs cs else c :: cs

def hexVal (c : Char) : Option Nat :=
  if c.isDigit then some (c.toNat - '0'.toNat)
  else if 'a' ≤ c ∧ c ≤ 'f' then some (c.toNat - 'a'.toNat + 10)
  else if 'A' ≤ c ∧ c ≤ 'F' then some (c.toNat - 'A'.toNat + 10)
  else none

/-- Body of a JSON string literal, after the opening quote: returns the
decoded string and the input after the closing quote. -/
def parseStrAux : Nat → List Char → List Char → Option (String × List Char)
  | 0, _, _ => none
  | _ + 1, _, [] => none
  | fuel + 1, acc, c :: rest =>
    if c = '"' then some (String.mk acc.reverse, rest)
    else if c = '\\' then
      match rest with
      | '"' :: r => parseStrAux fuel ('"' :: acc) r
      | '\\' :: r => parseStrAux fuel ('\\' :: acc) r
      | '/' :: r => parseStrAux fuel ('/' :: acc) r
      | 'b' :: r => parseStrAux fuel ('\x08' :: acc) r
      | 'f' :: r => parseStrAux fuel ('\x0c' :: acc) r
      | 'n' :: r => parseStrAux fuel ('\n' :: acc) r
      | 'r' :: r => parseStrAux fuel ('\r' :: acc) r
      | 't' :: r => parseStrAux fuel ('\t' :: acc) r
      | 'u' :: a :: b :: c2 :: d :: r =>
        match hexVal a, hexVal b, hexVal c2, hexVal d with
        | some x, some y, some z, some u2 =>
          parseStrAux fuel (Char.ofNat (((x * 16 + y) * 16 + z) * 16 + u2) :: acc) r
        | _, _, _, _ => none
      | _ => none
    else if c.toNat < 32 then none
    else parseStrAux fuel (c :: acc) rest

/-- Optional fraction part of a JSON number. -/
def parseFrac : List Char → Option (List Char × List Char)
  | '.' :: r =>
    let ds := r.takeWhile Char.isDigit
    if ds = [] then none else some ('.' :: ds, r.dropWhile Char.isDigit)
  | cs => some ([], cs)

/-- Optional exponent part of a JSON number. -/
def parseExp : List Char → Option (List Char × List Char)
  | [] => some ([], [])
  | c :: r =>
    if c = 'e' ∨ c = 'E' then
      let sr : List Char × List Char :=
        match r with
        | s :: r3 => if s = '+' ∨ s = '-' then ([s], r3) else ([], r)
        | [] => ([], r)
      let ds := sr.2.takeWhile Char.isDigit
      if ds = [] then none
      else some (c :: (sr.1 ++ ds), sr.2.dropWhile Char.isDigit)
    else some ([], c :: r)

/-- A JSON number token (strict JSON grammar: no leading zeros, no bare
`.5`/`1.`, optional sign and exponent).  Keeps the lexeme. -/
def parseNumTok (cs : List Char) : Option (JsonVal × List Char) :=
  let sc : List Char × List Char :=
    match cs with
    | '-' :: r => (['-'], r)
    | _ => ([], cs)
  match sc.2 with
  | [] => none
  | c :: _ =>
    if c.isDigit = false then none
    else
      let ip := sc.2.takeWhile Char.isDigit
      let rest1 := sc.2.dropWhile Char.isDigit
      if 1 < ip.length ∧ ip.headD '1' = '0' then none
      else
        match parseFrac rest1 with
        | none => none
        | some (fp, rest2) =>
          match parseExp rest2 with
          | none => none
          | some (ep, rest3) =>
            some (.num (String.mk (sc.1 ++ ip ++ fp ++ ep)), rest3)

mutual

/-- One JSON value (leading whitespace allowed), returning the rest of the
input.  Fueled; `jsonParse` supplies enough fuel for any input. -/
def parseVal : Nat → List Char → Option (JsonVal × List Char)
  | 0, _ => none
  | fuel + 1, cs =>
    match skipWs cs with
    | 'n' :: 'u' :: 'l' :: 'l' :: r => some (.null, r)
    | 't' :: 'r' :: 'u' :: 'e' :: r => some (.bool true, r)
    | 'f' :: 'a' :: 'l' :: 's' :: 'e' :: r => some (.bool false, r)
    | '"' :: r =>
      (match parseStrAux (r.length + 1) [] r with
       | some (s, r2) => some (.str s, r2)
       | none => none)
    | '[' :: r =>
      (match skipWs r with
       | ']' :: r2 => some (.arr [], r2)
       | r2 =>
         match parseElems fuel r2 with
         | some (vs, r3) => some (.arr vs, r3)
         | none => none)
    | '\x7b' :: r =>
      (match skipWs r with
       | '\x7d' :: r2 => some (.obj [], r2)
       | r2 =>
         match parseMembers fuel [] r2 with
         | some (fs, r3) => some (.obj fs, r3)
         | none => none)
    | cs2 => parseNumTok cs2

/-- Comma-separated array elements up to the closing `]`. -/
def parseElems : Nat → List Char → Option (List JsonVal × List Char)
  | 0, _ => none
  | fuel + 1, cs =>
    match parseVal fuel cs with
    | none => none
    | some (v, r) =>
      match skipWs r with
      | ',' :: r2 =>
        (match parseElems fuel r2 with
         | some (vs, r3) => some (v :: vs, r3)
         | none => none)
      | ']' :: r2 => some ([v], r2)
      | _ => none

/-- Comma-separated object members up to the closing brace; duplicate keys
overwrite in place, as in JavaScript. -/
def parseMembers : Nat → List (String × JsonVal) → List Char →
    Option (List (String × JsonVal) × List Char)
  | 0, _, _ => none
  | fuel + 1, acc, cs =>
    match skipWs cs with
    | '"' :: r =>
      (match parseStrAux (r.length + 1) [] r with
       | none => none
       | some (k, r2) =>
         match skipWs r2 with
         | ':' :: r3 =>
           (match parseVal fuel r3 with
            | none => none
            | some (v, r4) =>
              match skipWs r4 with
              | ',' :: r5 => parseMembers fuel (objUpsert acc k v) r5
              | '\x7d' :: r5 => some (objUpsert acc k v, r5)
              | _ => none)
         | _ => none)
    | _ => none

end

/-- `JSON.parse`: `none` models a thrown `SyntaxError`. -/
def jsonParse (s : String) : Option JsonVal :=
  match parseVal (s.length + 1) s.data with
  | some (v, r) => if skipWs r = [] then some v else none
  | none => none

/-! ## JavaScript semantics used by the handlers -/

/-- Is a JSON number lexeme a representation of zero?  (`0`, `-0`, `0.00`,
`0e9`, … — the exponent never affects zero-ness.) -/
def numIsZero (lex : String) : Bool :=
  ((lex.data.takeWhile (fun c => c ≠ 'e' ∧ c ≠ 'E')).filter Char.isDigit).all
    (fun c => c = '0')

/-- JavaScript truthiness of a possibly-undefined (`none`) parsed-JSON
value: `undefined`, `null`, `false`, `0`, `""` are falsy; objects and
arrays are always truthy (`NaN` cannot come out of `JSON.parse`). -/
def truthy : Option JsonVal → Bool
  | none => false
  | some .null => false
  | some (.bool b) => b
  | some (.num lex) => !(numIsZero lex)
  | some (.str s) => s != ""
  | some (.arr _) => true
  | some (.obj _) => true

/-- Field lookup in an object's field list (keys are unique after
`jsonParse`). -/
def objField (fs : List (String × JsonVal)) (k : String) : Option JsonVal :=
  (fs.find? (fun p => p.1 == k)).map (fun p => p.2)

/-- JavaScript property access `v.k` on a parsed JSON value: throws a
`TypeError` on `null`, is `undefined` (`none`) on primitives and on arrays
for the property names this worker reads, and looks the key up on objects. -/
def jsField : JsonVal → String → Except String (Option JsonVal)
  | .null, k => .error ("TypeError: Cannot read properties of null (reading " ++ k ++ ")")
  | .obj fs, k => .ok (objField fs k)
  | _, _ => .ok none

/-- Optional chaining `v?.k`: `undefined` on `null` instead of throwing. -/
def optChainField : JsonVal → String → Option JsonVal
  | .null, _ => none
  | .obj fs, k => objField fs k
  | _, _ => none

/-- JavaScript string conversion as used in template literals and by
`fetch`'s URL coercion.  Number lexemes are kept verbatim (the worker only
ever interpolates strings in practice). -/
def jsDisplay : JsonVal → String
  | .null => "null"
  | .bool true => "true"
  | .bool false => "false"
  | .num lex => lex
  | .str s => s
  | .arr vs =>
    String.intercalate ","
      (vs.attach.map (fun x =>
        match x with
        | ⟨.null, _⟩ => ""
        | ⟨v, _⟩ => jsDisplay v))
  | .obj _ => "[object Object]"

/-- Suffix test on strings (structural, over the character lists). -/
def strEndsWith (s post : String) : Bool :=
  decide (post.data.length ≤ s.data.length) &&
    s.data.drop (s.data.length - post.data.length) == post.data

/-- Prefix test on strings (structural, over the character lists). -/
def strStartsWith (s pre : String) : Bool :=
  s.data.take pre.data.length == pre.data

/-- ASCII-folding lower-casing (structural, over the character lists). -/
def strToLower (s : String) : String :=
  String.mk (s.data.map Char.toLower)

/-- `String.prototype.includes`: substring containment. -/
def strContains (s sub : String) : Bool :=
  (List.range (s.data.length + 1)).any
    (fun i => (s.data.drop i).take sub.data.length = sub.data)

/-- `origins.includes(origin)` for `origins` an array: SameValueZero
comparison of `origin` (a string) against the elements. -/
def originAllowed (vs : List JsonVal) (o : String) : Bool :=
  vs.any (fun v => match v with | .str s => s == o | _ => false)

/-- `origins.includes(origin)` for an arbitrary `JSON.parse` result: arrays
test membership, strings test substring containment, anything else has no
`includes` method and throws. -/
def includesStr (v : JsonVal) (o : String) : Except String Bool :=
  match v with
  | .arr vs => .ok (originAllowed vs o)
  | .str s => .ok (strContains s o)
  | _ => .error "TypeError: origins.includes is not a function"

/-- `escapeHtml`'s per-character replacement map. -/
def escapeChar (c : Char) : String :=
  if c = '&' then "&amp;"
  else if c = '<' then "&lt;"
  else if c = '>' then "&gt;"
  else if c = '"' then "&quot;"
  else if c = '\'' then "&#39;"
  else String.singleton c

/-- `escapeHtml(s)`: `s.replace(/[&<>\"']/g, ...)`. -/
def escapeHtml (s : String) : String :=
  String.join (s.data.map escapeChar)

/-- One character of `sanitize`: anything outside `[a-zA-Z0-9._-]` becomes
`_` (`Char.isAlpha`/`Char.isDigit` are exactly the ASCII ranges). -/
def sanChar (c : Char) : Char :=
  if c.isAlpha ∨ c.isDigit ∨ c = '.' ∨ c = '_' ∨ c = '-' then c else '_'

def sanitizeStr (s : String) : String :=
  String.mk (s.data.map sanChar)

/-- `sanitize(name="file")`: the default kicks in only for an `undefined`
argument. -/
def sanitize : Option String → String
  | none => sanitizeStr "file"
  | some s => sanitizeStr s

/-- The case-insensitive image-extension test
`/\.(png|jpg|jpeg|gif|webp|svg)$/i.test(path)`. -/
def imageExt (path : String) : Bool :=
  ["png", "jpg", "jpeg", "gif", "webp", "svg"].any
    (fun e => strEndsWith (strToLower path) ("." ++ e))

/-- `contentType(path)` from the source: ordered suffix tests, first match
wins, everything else is plain text. -/
def contentType (path : String) : String :=
  if strEndsWith path ".html" then "text/html; charset=utf-8"
  else if strEndsWith path ".css" then "text/css; charset=utf-8"
  else if strEndsWith path ".js" then "text/javascript; charset=utf-8"
  else if imageExt path then "image/*"
  else "text/plain; charset=utf-8"

/-- The spec's wording of the image-suffix test: a case-insensitive match of
one of the six suffixes. -/
def imageExtSpec (path : String) : Bool :=
  strEndsWith (strToLower path) ".png" || strEndsWith (strToLower path) ".jpg" ||
  strEndsWith (strToLower path) ".jpeg" || strEndsWith (strToLower path) ".gif" ||
  strEndsWith (strToLower path) ".webp" || strEndsWith (strToLower path) ".svg"

/-- The content-type classifier as §4.2 of the spec words it, for
comparison with the source's `contentType`. -/
def contentTypeSpec (path : String) : String :=
  if strEndsWith path ".html" then "text/html; charset=utf-8"
  else if strEndsWith path ".css" then "text/css; charset=utf-8"
  else if strEndsWith path ".js" then "text/javascript; charset=utf-8"
  else if imageExtSpec path then "image/*"
  else "text/plain; charset=utf-8"

/-- The message of the `SyntaxError` thrown by `JSON.parse` on bad input
(`String(err)` of it, as the top-level catch reports). -/
def jsonErrMsg : String := "SyntaxError: Unexpected token in JSON"

/-- `safeJson(req)`: an empty body text is the empty object, anything else
goes through `JSON.parse` (whose failure throws). -/
def safeJson (body : String) : Except String JsonVal :=
  if body = "" then .ok (.obj [])
  else
    match jsonParse body with
    | some v => .ok v
    | none => .error jsonErrMsg

/-- `req.headers.get(name)`: header names compare case-insensitively. -/
def headerGet (hs : List (String × String)) (name : String) : Option String :=
  (hs.find? (fun p => strToLower p.1 == strToLower name)).map (fun p => p.2)

/-- `url.searchParams.get(name)`: first value or `null`. -/
def queryGet (q : List (String × String)) (name : String) : Option String :=
  (q.find? (fun p => p.1 == name)).map (fun p => p.2)

/-- Exact-name lookup in a response-header list (the headers this model
constructs). -/
def lookupHeader (hs : List (String × String)) (name : String) : Option String :=
  (hs.find? (fun p => p.1 == name)).map (fun p => p.2)

/-! ## `Date.prototype.toISOString` on a Unix epoch-millisecond clock -/

def pad2 (n : Nat) : String :=
  if n < 10 then "0" ++ toString n else toString n

def pad3 (n : Nat) : String :=
  if n < 10 then "00" ++ toString n
  else if n < 100 then "0" ++ toString n
  else toString n

def pad4 (n : Nat) : String :=
  if n < 10 then "000" ++ toString n
  else if n < 100 then "00" ++ toString n
  else if n < 1000 then "0" ++ toString n
  else toString n

/-- Gregorian date from a count of days since 1970-01-01 (the standard
era-based civil-from-days computation). -/
def civilFromDays (z0 : Nat) : Nat × Nat × Nat :=
  let z := z0 + 719468
  let era := z / 146097
  let doe := z % 146097
  let yoe := (doe - doe / 1460 + doe / 36524 - doe / 146096) / 365
  let y := yoe + era * 400
  let doy := doe - (365 * yoe + yoe / 4 - yoe / 100)
  let mp := (5 * doy + 2) / 153
  let d := doy - (153 * mp + 2) / 5 + 1
  let m := if mp < 10 then mp + 3 else mp - 9
  (if m ≤ 2 then y + 1 else y, m, d)

/-- `new Date(ms).toISOString()` for a non-negative epoch-millisecond
timestamp: `YYYY-MM-DDTHH:mm:ss.sssZ`. -/
def isoString (ms : Nat) : String :=
  let days := ms / 86400000
  let rem := ms % 86400000
  let ymd := civilFromDays days
  pad4 ymd.1 ++ "-" ++ pad2 ymd.2.1 ++ "-" ++ pad2 ymd.2.2 ++ "T" ++
    pad2 (rem / 3600000) ++ ":" ++ pad2 (rem % 3600000 / 60000) ++ ":" ++
    pad2 (rem % 60000 / 1000) ++ "." ++ pad3 (rem % 1000) ++ "Z"

/-! ## `key.split("/").pop()` -/

/-- `String.prototype.split` with a single-character separator, on the
character list. -/
def splitChar (sep : Char) : List Char → List (List Char)
  | [] => [[]]
  | c :: rest =>
    if c = sep then [] :: splitChar sep rest
    else
      match splitChar sep rest with
      | [] => [[c]]
      | h :: t => (c :: h) :: t

/-- `s.split("/").pop()` (the split result is never empty). -/
def lastSeg (s : String) : String :=
  String.mk (((splitChar '/' s.data).getLast?).getD [])

/-! ## Data model: storage collaborator, request, response, environment -/

/-- A stored blob: its text content, the content type recorded at `put`
time (`httpMetadata.contentType`), and the R2 `uploaded` timestamp the
backend stamps on every write (epoch milliseconds). -/
structure StoredObj where
  content : String
  contentType : String
  uploaded : Nat
deriving Repr, DecidableEq

/-- The abstract key-value blob store, in backend-provided enumeration
order. -/
abbrev Store := List (String × StoredObj)

/-- `env.SITE.put(key, value, {httpMetadata:{contentType}})`: unconditional
overwrite; the backend stamps `uploaded` with the current time. -/
def sitePut (st : Store) (k v ct : String) (now : Nat) : Store :=
  st.filter (fun e => e.1 != k) ++ [(k, ⟨v, ct, now⟩)]

/-- `env.SITE.get(key)`. -/
def siteGet (st : Store) (k : String) : Option StoredObj :=
  (st.find? (fun e => e.1 == k)).map (fun e => e.2)

/-- A `FormData` entry: either a plain string value or a file (whose
`name` is `none` when the runtime supplies no filename at all). -/
inductive FormEntry where
  | str (s : String)
  | file (name : Option String) (type : String) (content : String)
deriving Repr, DecidableEq

/-- `form.get(name)`: first entry with that name, or `null`. -/
def formGet (fs : List (String × FormEntry)) (k : String) : Option FormEntry :=
  (fs.find? (fun p => p.1 == k)).map (fun p => p.2)

/-- An inbound request: `form` is the (pre-parsed) result the runtime's
`req.formData()` would yield — `Except.error` models that call throwing. -/
structure Req where
  method : String
  path : String
  query : List (String × String)
  headers : List (String × String)
  body : String
  form : Except String (List (String × FormEntry))
deriving Repr

/-- The worker's environment bindings (only `ALLOW_ORIGINS` matters to the
dispatcher; `none` models an unset variable). -/
structure Env where
  ALLOW_ORIGINS : Option String
deriving Repr, DecidableEq

/-- The ambient world: the blob store, the clock (`Date.now()`), and the
outbound-fetch collaborator used by analyze-cors (`Except.error` models a
rejected fetch, carrying `String(e)`). -/
structure World where
  store : Store
  now : Nat
  outFetch : String → Except String (Nat × List (String × String))

/-- A response body: `null` (preflight), a JSON envelope (kept structured —
`json()` serializes it with `JSON.stringify`), or raw text (the read
route). -/
inductive RBody where
  | empty
  | json (v : JsonVal)
  | raw (s : String)
deriving Repr

/-- A shaped `Response`. -/
structure ResponseB where
  status : Nat
  headers : List (String × String)
  body : RBody
deriving Repr

/-- `corsHeaders(allow, origin)`: three fixed headers, plus the reflected
`Access-Control-Allow-Origin` exactly when allowed. -/
def corsHeaders (allow : Bool) (origin : String) : List (String × String) :=
  [("Access-Control-Allow-Methods", "GET,POST,OPTIONS"),
   ("Access-Control-Allow-Headers", "content-type, authorization"),
   ("Access-Control-Max-Age", "86400")] ++
  (if allow then [("Access-Control-Allow-Origin", origin)] else [])

/-- `json(obj, allow, origin, status)`. -/
def jsonResp (v : JsonVal) (allow : Bool) (origin : String) (status : Nat) :
    ResponseB :=
  { status := status
    headers := corsHeaders allow origin ++ [("Content-Type", "application/json")]
    body := .json v }

/-- `corsSuggestions(h)` over the lower-cased header mapping. -/
def corsSuggestions (h : List (String × JsonVal)) : List String :=
  let out :=
    (if truthy (objField h "access-control-allow-origin") then []
     else ["Add Access-Control-Allow-Origin for your site origin (or reflect allowlist)."]) ++
    (if truthy (objField h "access-control-allow-methods") then []
     else ["Add Access-Control-Allow-Methods: GET,POST,OPTIONS."]) ++
    (if truthy (objField h "access-control-allow-headers") then []
     else ["Add Access-Control-Allow-Headers: content-type, authorization."])
  if out.length ≠ 0 then out
  else ["CORS looks okay or target doesn’t support CORS (use server-to-server fetch)."]

/-! ## Handlers and the dispatcher -/

/-- The value an R2 `put` actually stores for the worker's
`content ?? ""` argument: `undefined`/`null` coalesce to `""`, strings
pass through, and any other JavaScript value is rejected by the runtime
binding with a `TypeError`. -/
def r2Value : Option JsonVal → Except String String
  | none => .ok ""
  | some .null => .ok ""
  | some (.str s) => .ok s
  | some _ => .error "TypeError: R2 put: unsupported value type"

/-- `const origin = req.headers.get("Origin") || ""`. -/
def originOf (req : Req) : String :=
  (headerGet req.headers "Origin").getD ""

/-- `env.ALLOW_ORIGINS || "[]"`. -/
def cfgString (env : Env) : String :=
  match env.ALLOW_ORIGINS with
  | none => "[]"
  | some s => if s = "" then "[]" else s

/-- The fixed CSS rule string of generate-html. -/
def cssConst : String :=
  ".card\x7bbackground:#101a2e;border:1px solid #1f2e4f;border-radius:20px;padding:16px;color:#e8eefc\x7d"

/-- The HTML template of generate-html (template literal from the source). -/
def genHtml (sect escaped : String) : String :=
  "<!-- generated: " ++ sect ++ " -->\n<section class=\"card\">\n  <h2>" ++
  escaped ++
  "</h2>\n  <p>This is a generated placeholder. Replace with model output when keys are set.</p>\n</section>"

def handlePing (w : World) (allow : Bool) (origin : String) :
    Except String (ResponseB × Store) :=
  .ok (jsonResp (.obj [("ok", .bool true), ("time", .str (isoString w.now))])
    allow origin 200, w.store)

/-- The item object pushed per listed blob:
`{ key, size, uploaded: obj.uploaded?.toISOString?.() }` (R2 always stamps
`uploaded`, so the optional chain always produces the ISO string). -/
def mkListItem (e : String × StoredObj) : JsonVal :=
  .obj [("key", .str e.1),
        ("size", .num (toString e.2.content.utf8ByteSize)),
        ("uploaded", .str (isoString e.2.uploaded))]

def handleList (w : World) (req : Req) (allow : Bool) (origin : String) :
    Except String (ResponseB × Store) :=
  .ok (jsonResp
    (.obj [("ok", .bool true),
           ("items", .arr
             (((w.store.filter
                 (fun e => strStartsWith e.1 ((queryGet req.query "prefix").getD ""))).map
               mkListItem)))])
    allow origin 200, w.store)

def handleRead (w : World) (req : Req) (allow : Bool) (origin : String) :
    Except String (ResponseB × Store) :=
  match queryGet req.query "path" with
  | none =>
    .ok (jsonResp (.obj [("ok", .bool false), ("error", .str "path required")])
      allow origin 400, w.store)
  | some p =>
    if p = "" then
      .ok (jsonResp (.obj [("ok", .bool false), ("error", .str "path required")])
        allow origin 400, w.store)
    else
      match siteGet w.store p with
      | none =>
        .ok (jsonResp (.obj [("ok", .bool false), ("error", .str "not found")])
          allow origin 404, w.store)
      | some obj =>
        .ok ({ status := 200
               headers := corsHeaders allow origin ++ [("Content-Type", contentType p)]
               body := .raw obj.content }, w.store)

def handleWrite (w : World) (req : Req) (allow : Bool) (origin : String) :
    Except String (ResponseB × Store) :=
  match safeJson req.body with
  | .error e => .error e
  | .ok payload =>
    match jsField payload "path", jsField payload "content" with
    | .error e, _ => .error e
    | _, .error e => .error e
    | .ok pathV, .ok contentV =>
      if truthy pathV = false then
        .ok (jsonResp (.obj [("ok", .bool false), ("error", .str "path required")])
          allow origin 400, w.store)
      else
        match pathV with
        | some (.str ps) =>
          (match r2Value contentV with
           | .error e => .error e
           | .ok cs =>
             .ok (jsonResp (.obj [("ok", .bool true), ("path", .str ps)])
               allow origin 200,
               sitePut w.store ps cs (contentType ps) w.now))
        | _ => .error "TypeError: R2 put: unsupported key type"

/-- The body of apply-diff's `for ... of payload.files` loop. -/
def applyLoop (now : Nat) (st : Store) : List JsonVal → Except String Store
  | [] => .ok st
  | f :: rest =>
    match jsField f "path" with
    | .error e => .error e
    | .ok pv =>
      if truthy pv = false then applyLoop now st rest
      else
        match pv with
        | some (.str ps) =>
          (match jsField f "content" with
           | .error e => .error e
           | .ok cv =>
             match r2Value cv with
             | .error e => .error e
             | .ok cs => applyLoop now (sitePut st ps cs (contentType ps) now) rest)
        | _ => .error "TypeError: R2 put: unsupported key type"

def handleApplyDiff (w : World) (req : Req) (allow : Bool) (origin : String) :
    Except String (ResponseB × Store) :=
  match safeJson req.body with
  | .error e => .error e
  | .ok payload =>
    match optChainField payload "files" with
    | some (.arr fs) =>
      (match applyLoop w.now w.store fs with
       | .error e => .error e
       | .ok st2 =>
         .ok (jsonResp
           (.obj [("ok", .bool true), ("applied", .num (toString fs.length))])
           allow origin 200, st2))
    | _ =>
      .ok (jsonResp
        (.obj [("ok", .bool false),
               ("error", .str "Provide files[] or unified diff (TODO)")])
        allow origin 400, w.store)

def handleGenerateHtml (w : World) (req : Req) (allow : Bool) (origin : String) :
    Except String (ResponseB × Store) :=
  match safeJson req.body with
  | .error e => .error e
  | .ok payload =>
    match jsField payload "prompt", jsField payload "section" with
    | .error e, _ => .error e
    | _, .error e => .error e
    | .ok promptV, .ok sectionV =>
      match (if truthy promptV then promptV.getD .null else .str "New Section") with
      | .str ps =>
        .ok (jsonResp
          (.obj [("ok", .bool true),
                 ("html", .str (genHtml
                   (jsDisplay ((sectionV).getD (.str "page")))
                   (escapeHtml ps))),
                 ("css", .str cssConst),
                 ("js", .str "")])
          allow origin 200, w.store)
      | _ => .error "TypeError: s.replace is not a function"

def handleAnalyzeCors (w : World) (req : Req) (allow : Bool) (origin : String) :
    Except String (ResponseB × Store) :=
  match safeJson req.body with
  | .error e => .error e
  | .ok payload =>
    match jsField payload "url" with
    | .error e => .error e
    | .ok targetV =>
      if truthy targetV = false then
        .ok (jsonResp (.obj [("ok", .bool false), ("error", .str "url required")])
          allow origin 400, w.store)
      else
        match w.outFetch (jsDisplay (targetV.getD .null)) with
        | .error e =>
          .ok (jsonResp
            (.obj [("ok", .bool false), ("error", .str "fetch_failed"),
                   ("detail", .str e)])
            allow origin 502, w.store)
        | .ok (st, hs) =>
          .ok (jsonResp
            (.obj [("ok", .bool true), ("status", .num (toString st)),
                   ("headers", .obj (hs.foldl
                     (fun acc p => objUpsert acc (strToLower p.1) (.str p.2)) [])),
                   ("suggestions", .arr ((corsSuggestions (hs.foldl
                     (fun acc p => objUpsert acc (strToLower p.1) (.str p.2)) [])).map .str))])
            allow origin 200, w.store)

def handleUpload (w : World) (req : Req) (allow : Bool) (origin : String) :
    Except String (ResponseB × Store) :=
  if strStartsWith ((headerGet req.headers "Content-Type").getD "")
      "multipart/form-data" = false then
    .ok (jsonResp (.obj [("ok", .bool false),
                         ("error", .str "multipart/form-data required")])
      allow origin 400, w.store)
  else
    match req.form with
    | .error e => .error e
    | .ok form =>
      match formGet form "file" with
      | none =>
        .ok (jsonResp (.obj [("ok", .bool false), ("error", .str "file required")])
          allow origin 400, w.store)
      | some (.str _) =>
        .ok (jsonResp (.obj [("ok", .bool false), ("error", .str "file required")])
          allow origin 400, w.store)
      | some (.file nm ty cont) =>
        .ok (jsonResp
          (.obj [("ok", .bool true),
                 ("key", .str ("assets/" ++ toString w.now ++ "_" ++ sanitize nm)),
                 ("url", .str ("/assets/" ++
                   lastSeg ("assets/" ++ toString w.now ++ "_" ++ sanitize nm)))])
          allow origin 200,
          sitePut w.store ("assets/" ++ toString w.now ++ "_" ++ sanitize nm)
            cont (if ty = "" then "application/octet-stream" else ty) w.now)

def handleDeploy (w : World) (allow : Bool) (origin : String) :
    Except String (ResponseB × Store) :=
  .ok (jsonResp
    (.obj [("ok", .bool false),
           ("message", .str "Deploy not wired yet. Choose Pages Direct Upload or Git mode.")])
    allow origin 501, w.store)

/-- The router: the body of the `try` block. -/
def route (w : World) (req : Req) (allow : Bool) (origin : String) :
    Except String (ResponseB × Store) :=
  if req.path = "/api/ping" then handlePing w allow origin
  else if req.path = "/api/list" ∧ req.method = "GET" then handleList w req allow origin
  else if req.path = "/api/read" ∧ req.method = "GET" then handleRead w req allow origin
  else if req.path = "/api/write" ∧ req.method = "POST" then handleWrite w req allow origin
  else if req.path = "/api/apply-diff" ∧ req.method = "POST" then handleApplyDiff w req allow origin
  else if req.path = "/api/generate-html" ∧ req.method = "POST" then handleGenerateHtml w req allow origin
  else if req.path = "/api/analyze-cors" ∧ req.method = "POST" then handleAnalyzeCors w req allow origin
  else if req.path = "/api/upload" ∧ req.method = "POST" then handleUpload w req allow origin
  else if req.path = "/api/deploy" ∧ req.method = "POST" then handleDeploy w allow origin
  else .ok (jsonResp (.obj [("ok", .bool false), ("error", .str "Route not found")])
    allow origin 404, w.store)

/-- The top-level `fetch` dispatcher.  The allowlist parse and the
`includes` call happen before the `try`, so their exceptions escape as
`Except.error`; everything thrown inside `route` is caught and shaped into
the 500 envelope. -/
def workerFetch (env : Env) (w : World) (req : Req) :
    Except String (ResponseB × Store) :=
  match jsonParse (cfgString env) with
  | none => .error jsonErrMsg
  | some originsV =>
    match includesStr originsV (originOf req) with
    | .error e => .error e
    | .ok allow =>
      if req.method = "OPTIONS" then
        .ok ({ status := 204
               headers := corsHeaders allow (originOf req)
               body := .empty }, w.store)
      else
        match route w req allow (originOf req) with
        | .ok res => .ok res
        | .error e =>
          .ok (jsonResp
            (.obj [("ok", .bool false), ("error", .str "server_error"),
                   ("detail", .str e)])
            allow (originOf req) 500, w.store)

/-! ## Header-shape lemmas: every delivered response carries the CORS
headers computed before dispatch -/

theorem handlePing_headers (w : World) (allow : Bool) (origin : String)
    (r : ResponseB) (st : Store)
    (h : handlePing w allow origin = .ok (r, st)) :
    ∃ ct, r.headers = corsHeaders allow origin ++ [("Content-Type", ct)] := by
  injection h with h
  injection h with h1 h2
  subst h1
  exact ⟨_, rfl⟩

theorem handleList_headers (w : World) (req : Req) (allow : Bool) (origin : String)
    (r : ResponseB) (st : Store)
    (h : handleList w req allow origin = .ok (r, st)) :
    ∃ ct, r.headers = corsHeaders allow origin ++ [("Content-Type", ct)] := by
  injection h with h
  injection h with h1 h2
  subst h1
  exact ⟨_, rfl⟩

theorem handleRead_headers (w : World) (req : Req) (allow : Bool) (origin : String)
    (r : ResponseB) (st : Store)
    (h : handleRead w req allow origin = .ok (r, st)) :
    ∃ ct, r.headers = corsHeaders allow origin ++ [("Content-Type", ct)] := by
  unfold handleRead at h
  repeat' split at h
  all_goals (injection h with h; injection h with h1 h2; subst h1; exact ⟨_, rfl⟩)

theorem handleWrite_headers (w : World) (req : Req) (allow : Bool) (origin : String)
    (r : ResponseB) (st : Store)
    (h : handleWrite w req allow origin = .ok (r, st)) :
    ∃ ct, r.headers = corsHeaders allow origin ++ [("Content-Type", ct)] := by
  unfold handleWrite at h
  repeat' split at h
  all_goals try exact Except.noConfusion h
  all_goals (injection h with h; injection h with h1 h2; subst h1; exact ⟨_, rfl⟩)

theorem handleApplyDiff_headers (w : World) (req : Req) (allow : Bool) (origin : String)
    (r : ResponseB) (st : Store)
    (h : handleApplyDiff w req allow origin = .ok (r, st)) :
    ∃ ct, r.headers = corsHeaders allow origin ++ [("Content-Type", ct)] := by
  unfold handleApplyDiff at h
  repeat' split at h
  all_goals try exact Except.noConfusion h
  all_goals (injection h with h; injection h with h1 h2; subst h1; exact ⟨_, rfl⟩)

theorem handleGenerateHtml_headers (w : World) (req : Req) (allow : Bool) (origin : String)
    (r : ResponseB) (st : Store)
    (h : handleGenerateHtml w req allow origin = .ok (r, st)) :
    ∃ ct, r.headers = corsHeaders allow origin ++ [("Content-Type", ct)] := by
  unfold handleGenerateHtml at h
  repeat' split at h
  all_goals try exact Except.noConfusion h
  all_goals (injection h with h; injection h with h1 h2; subst h1; exact ⟨_, rfl⟩)

theorem handleAnalyzeCors_headers (w : World) (req : Req) (allow : Bool) (origin : String)
    (r : ResponseB) (st : Store)
    (h : handleAnalyzeCors w req allow origin = .ok (r, st)) :
    ∃ ct, r.headers = corsHeaders allow origin ++ [("Content-Type", ct)] := by
  unfold handleAnalyzeCors at h
  repeat' split at h
  all_goals try exact Except.noConfusion h
  all_goals (injection h with h; injection h with h1 h2; subst h1; exact ⟨_, rfl⟩)

theorem handleUpload_headers (w : World) (req : Req) (allow : Bool) (origin : String)
    (r : ResponseB) (st : Store)
    (h : handleUpload w req allow origin = .ok (r, st)) :
    ∃ ct, r.headers = corsHeaders allow origin ++ [("Content-Type", ct)] := by
  unfold handleUpload at h
  repeat' split at h
  all_goals try exact Except.noConfusion h
  all_goals (injection h with h; injection h with h1 h2; subst h1; exact ⟨_, rfl⟩)

theorem handleDeploy_headers (w : World) (allow : Bool) (origin : String)
    (r : ResponseB) (st : Store)
    (h : handleDeploy w allow origin = .ok (r, st)) :
    ∃ ct, r.headers = corsHeaders allow origin ++ [("Content-Type", ct)] := by
  injection h with h
  injection h with h1 h2
  subst h1
  exact ⟨_, rfl⟩

theorem route_ok_headers (w : World) (req : Req) (allow : Bool) (origin : String)
    (r : ResponseB) (st : Store)
    (h : route w req allow origin = .ok (r, st)) :
    ∃ ct, r.headers = corsHeaders allow origin ++ [("Content-Type", ct)] := by
  unfold route at h
  split at h
  · exact handlePing_headers _ _ _ _ _ h
  split at h
  · exact handleList_headers _ _ _ _ _ _ h
  split at h
  · exact handleRead_headers _ _ _ _ _ _ h
  split at h
  · exact handleWrite_headers _ _ _ _ _ _ h
  split at h
  · exact handleApplyDiff_headers _ _ _ _ _ _ h
  split at h
  · exact handleGenerateHtml_headers _ _ _ _ _ _ h
  split at h
  · exact handleAnalyzeCors_headers _ _ _ _ _ _ h
  split at h
  · exact handleUpload_headers _ _ _ _ _ _ h
  split at h
  · exact handleDeploy_headers _ _ _ _ _ h
  injection h with h
  injection h with h1 h2
  subst h1
  exact ⟨_, rfl⟩

/-- Once the pre-`try` allowlist computation has succeeded, the dispatcher
always delivers a response (never an unstructured fault), and its headers
are the CORS headers of that computation plus at most a `Content-Type`. -/
theorem workerFetch_shape (env : Env) (w : World) (req : Req) (ov : JsonVal)
    (allow : Bool)
    (h1 : jsonParse (cfgString env) = some ov)
    (h2 : includesStr ov (originOf req) = .ok allow) :
    ∃ r st, workerFetch env w req = .ok (r, st) ∧
      ∃ rest, (rest = [] ∨ ∃ ct, rest = [("Content-Type", ct)]) ∧
        r.headers = corsHeaders allow (originOf req) ++ rest := by
  unfold workerFetch
  simp only [h1, h2]
  by_cases hm : req.method = "OPTIONS"
  · rw [if_pos hm]
    exact ⟨_, _, rfl, [], Or.inl rfl, by simp⟩
  · rw [if_neg hm]
    cases hr : route w req allow (originOf req) with
    | ok res =>
      obtain ⟨ct, hc⟩ := route_ok_headers w req allow (originOf req) res.1 res.2 hr
      exact ⟨res.1, res.2, rfl, [("Content-Type", ct)], Or.inr ⟨ct, rfl⟩, hc⟩
    | error e =>
      exact ⟨_, _, rfl, [("Content-Type", "application/json")],
        Or.inr ⟨_, rfl⟩, rfl⟩

/-- Lookups into `corsHeaders allow origin ++ rest` when `rest` is at most
a `Content-Type` entry. -/
theorem lookup_cors_fixed (allow : Bool) (origin : String)
    (rest : List (String × String))
    (hr : rest = [] ∨ ∃ ct, rest = [("Content-Type", ct)]) :
    lookupHeader (corsHeaders allow origin ++ rest) "Access-Control-Allow-Methods" =
      some "GET,POST,OPTIONS" ∧
    lookupHeader (corsHeaders allow origin ++ rest) "Access-Control-Allow-Headers" =
      some "content-type, authorization" ∧
    lookupHeader (corsHeaders allow origin ++ rest) "Access-Control-Max-Age" =
      some "86400" ∧
    lookupHeader (corsHeaders allow origin ++ rest) "Access-Control-Allow-Origin" =
      (if allow then some origin else none) := by
  obtain rfl | ⟨ct, rfl⟩ := hr <;> cases allow <;> exact ⟨rfl, rfl, rfl, rfl⟩

/-- C1: for every request whose method is not OPTIONS, the delivered
response — on every route, the no-match path and the exception path alike —
carries the three fixed CORS headers, and carries
`Access-Control-Allow-Origin` equal to the request's Origin exactly when
that Origin is in the configured allowlist (absent otherwise, never a
wildcard or a different value). -/
theorem c1_cors_invariant (env : Env) (w : World) (req : Req)
    (vs : List JsonVal) (r : ResponseB) (st : Store)
    (hcfg : jsonParse (cfgString env) = some (.arr vs))
    (_hm : req.method ≠ "OPTIONS")
    (hok : workerFetch env w req = .ok (r, st)) :
    lookupHeader r.headers "Access-Control-Allow-Methods" =
      some "GET,POST,OPTIONS" ∧
    lookupHeader r.headers "Access-Control-Allow-Headers" =
      some "content-type, authorization" ∧
    lookupHeader r.headers "Access-Control-Max-Age" = some "86400" ∧
    lookupHeader r.headers "Access-Control-Allow-Origin" =
      (if originAllowed vs (originOf req) then some (originOf req) else none) := by
  obtain ⟨r', st', hw, rest, hrest, hh⟩ :=
    workerFetch_shape env w req (.arr vs) (originAllowed vs (originOf req)) hcfg rfl
  have hr : r' = r := by
    have := hok.symm.trans hw
    injection this with this
    exact (congrArg Prod.fst this).symm
  subst hr
  rw [hh]
  exact lookup_cors_fixed _ _ rest hrest

/-- C2 counterexample: with the malformed configuration string `"not json"`
(not valid JSON), the allowlist parse throws before the dispatcher's
`try`, so even a plain GET /api/ping produces an uncaught exception rather
than a shaped Response — contradicting the claim that every request under
a malformed configuration still gets a shaped Response from an empty
allowlist. -/
theorem c2_counterexample :
    workerFetch { ALLOW_ORIGINS := some "not json" }
      { store := [], now := 0, outFetch := fun _ => .error "x" }
      { method := "GET", path := "/api/ping", query := [], headers := [],
        body := "", form := .ok [] }
      = .error jsonErrMsg := rfl

/-- C2 (amended): an absent configuration yields the empty allowlist — so
no cross-origin caller is allowed and every request still gets a shaped
Response — but a malformed (unparseable) configuration string makes
`JSON.parse` throw before the dispatcher's try/catch, so such requests
fail with an uncaught exception instead of a shaped Response. -/
theorem c2_allowlist_amended :
    (∀ (w : World) (req : Req), ∃ r st,
        workerFetch { ALLOW_ORIGINS := none } w req = .ok (r, st) ∧
        lookupHeader r.headers "Access-Control-Allow-Origin" = none) ∧
    (∀ (s : String) (w : World) (req : Req), s ≠ "" → jsonParse s = none →
        workerFetch { ALLOW_ORIGINS := some s } w req = .error jsonErrMsg) := by
  constructor
  · intro w req
    obtain ⟨r, st, hw, rest, hrest, hh⟩ :=
      workerFetch_shape { ALLOW_ORIGINS := none } w req (.arr []) false rfl rfl
    refine ⟨r, st, hw, ?_⟩
    rw [hh]
    exact (lookup_cors_fixed false _ rest hrest).2.2.2
  · intro s w req hne hbad
    unfold workerFetch
    have hc : cfgString { ALLOW_ORIGINS := some s } = s := by
      simp [cfgString, hne]
    rw [hc, hbad]

theorem c2_allowlist_amended_witness :
    workerFetch { ALLOW_ORIGINS := some "not json" }
      { store := [], now := 5, outFetch := fun _ => .error "x" }
      { method := "POST", path := "/api/write", query := [], headers := [],
        body := "", form := .ok [] }
      = .error jsonErrMsg :=
  c2_allowlist_amended.2 "not json"
    { store := [], now := 5, outFetch := fun _ => .error "x" }
    { method := "POST", path := "/api/write", query := [], headers := [],
      body := "", form := .ok [] }
    (by decide) (by rfl)

/-- C3: any OPTIONS request, regardless of path (existing or not),
short-circuits to status 204 with empty body and only the CORS headers;
the store is untouched — no route matching or handler logic runs. -/
theorem c3_preflight (env : Env) (w : World) (req : Req) (vs : List JsonVal)
    (hcfg : jsonParse (cfgString env) = some (.arr vs))
    (hm : req.method = "OPTIONS") :
    workerFetch env w req =
      .ok ({ status := 204,
             headers := corsHeaders (originAllowed vs (originOf req)) (originOf req),
             body := .empty }, w.store) := by
  unfold workerFetch
  rw [hcfg]
  simp [includesStr, hm]

/-! ## Routing lemmas -/

/-- Once the allowlist computation has succeeded and a handler outcome is
known, the dispatcher delivers exactly that outcome. -/
theorem workerFetch_of_route_ok (env : Env) (w : World) (req : Req)
    (vs : List JsonVal) (r : ResponseB) (st : Store)
    (hcfg : jsonParse (cfgString env) = some (.arr vs))
    (hm : req.method ≠ "OPTIONS")
    (hr : route w req (originAllowed vs (originOf req)) (originOf req) = .ok (r, st)) :
    workerFetch env w req = .ok (r, st) := by
  unfold workerFetch
  simp only [hcfg, includesStr, if_neg hm, hr]

/-- A thrown handler exception becomes the shaped 500 envelope. -/
theorem workerFetch_of_route_error (env : Env) (w : World) (req : Req)
    (vs : List JsonVal) (e : String)
    (hcfg : jsonParse (cfgString env) = some (.arr vs))
    (hm : req.method ≠ "OPTIONS")
    (hr : route w req (originAllowed vs (originOf req)) (originOf req) = .error e) :
    workerFetch env w req =
      .ok (jsonResp
        (.obj [("ok", .bool false), ("error", .str "server_error"),
               ("detail", .str e)])
        (originAllowed vs (originOf req)) (originOf req) 500, w.store) := by
  unfold workerFetch
  simp only [hcfg, includesStr, if_neg hm, hr]

theorem route_eq_list (w : World) (req : Req) (allow : Bool) (origin : String)
    (hp : req.path = "/api/list") (hm : req.method = "GET") :
    route w req allow origin = handleList w req allow origin := by
  unfold route
  rw [hp, hm]
  simp

theorem route_eq_read (w : World) (req : Req) (allow : Bool) (origin : String)
    (hp : req.path = "/api/read") (hm : req.method = "GET") :
    route w req allow origin = handleRead w req allow origin := by
  unfold route
  rw [hp, hm]
  simp

theorem route_eq_write (w : World) (req : Req) (allow : Bool) (origin : String)
    (hp : req.path = "/api/write") (hm : req.method = "POST") :
    route w req allow origin = handleWrite w req allow origin := by
  unfold route
  rw [hp, hm]
  simp

theorem route_eq_applydiff (w : World) (req : Req) (allow : Bool) (origin : String)
    (hp : req.path = "/api/apply-diff") (hm : req.method = "POST") :
    route w req allow origin = handleApplyDiff w req allow origin := by
  unfold route
  rw [hp, hm]
  simp

theorem route_eq_generate (w : World) (req : Req) (allow : Bool) (origin : String)
    (hp : req.path = "/api/generate-html") (hm : req.method = "POST") :
    route w req allow origin = handleGenerateHtml w req allow origin := by
  unfold route
  rw [hp, hm]
  simp

theorem route_eq_analyze (w : World) (req : Req) (allow : Bool) (origin : String)
    (hp : req.path = "/api/analyze-cors") (hm : req.method = "POST") :
    route w req allow origin = handleAnalyzeCors w req allow origin := by
  unfold route
  rw [hp, hm]
  simp

theorem route_eq_upload (w : World) (req : Req) (allow : Bool) (origin : String)
    (hp : req.path = "/api/upload") (hm : req.method = "POST") :
    route w req allow origin = handleUpload w req allow origin := by
  unfold route
  rw [hp, hm]
  simp

/-! ## C4: apply-diff -/

/-- The effect of one loop iteration of apply-diff on the store (total
companion of `applyLoop`: entries that would throw leave the store as is,
and `applyLoop_ok` is only stated on throw-free entries). -/
def entryWrite (now : Nat) (st : Store) (f : JsonVal) : Store :=
  match jsField f "path" with
  | .error _ => st
  | .ok pv =>
    if truthy pv = false then st
    else
      match pv with
      | some (.str ps) =>
        (match jsField f "content" with
         | .error _ => st
         | .ok cv =>
           match r2Value cv with
           | .error _ => st
           | .ok cs => sitePut st ps cs (contentType ps) now)
      | _ => st

/-- A `files` entry that the loop can process without throwing: reading
`.path` succeeds, and when the path is truthy it is a string whose entry's
`.content` read and store write succeed. -/
def entryOK (f : JsonVal) : Prop :=
  ∃ pv, jsField f "path" = .ok pv ∧
    (truthy pv = false ∨
      ∃ ps, pv = some (.str ps) ∧
        ∃ cv, jsField f "content" = .ok cv ∧ ∃ cs, r2Value cv = .ok cs)

theorem applyLoop_ok (now : Nat) (st : Store) (fs : List JsonVal)
    (h : ∀ f ∈ fs, entryOK f) :
    applyLoop now st fs = .ok (fs.foldl (entryWrite now) st) := by
  induction fs generalizing st with
  | nil => rfl
  | cons f rest ih =>
    have hrest : ∀ g ∈ rest, entryOK g := fun g hg => h g (List.mem_cons_of_mem f hg)
    obtain ⟨pv, hpv, hcase⟩ := h f (List.mem_cons_self f rest)
    simp only [applyLoop, List.foldl_cons, entryWrite, hpv]
    rcases hcase with htr | ⟨ps, rfl, cv, hcv, cs, hcs⟩
    · rw [if_pos htr, if_pos htr]
      exact ih _ hrest
    · by_cases ht : truthy (some (.str ps)) = false
      · rw [if_pos ht, if_pos ht]
        exact ih _ hrest
      · rw [if_neg ht, if_neg ht]
        simp only [hcv, hcs]
        exact ih _ hrest

/-- C4: a POST /api/apply-diff whose body has a `files` array writes
exactly the truthy-path entries (with /api/write's put semantics and
content defaulting to the empty string — that is what `entryWrite` does
per entry, leaving the store unchanged for path-less entries) and answers
`{ok:true, applied: files.length}` counting skipped entries too; when
`files` is absent or not an array it answers the 400 guidance envelope and
writes nothing. -/
theorem c4_apply_diff (env : Env) (w : World) (req : Req) (vs : List JsonVal)
    (v : JsonVal)
    (hcfg : jsonParse (cfgString env) = some (.arr vs))
    (hp : req.path = "/api/apply-diff") (hm : req.method = "POST")
    (hb : safeJson req.body = .ok v) :
    (∀ fs, optChainField v "files" = some (.arr fs) → (∀ f ∈ fs, entryOK f) →
      workerFetch env w req =
        .ok (jsonResp
          (.obj [("ok", .bool true), ("applied", .num (toString fs.length))])
          (originAllowed vs (originOf req)) (originOf req) 200,
          fs.foldl (entryWrite w.now) w.store)) ∧
    ((∀ fs, optChainField v "files" ≠ some (.arr fs)) →
      workerFetch env w req =
        .ok (jsonResp
          (.obj [("ok", .bool false),
                 ("error", .str "Provide files[] or unified diff (TODO)")])
          (originAllowed vs (originOf req)) (originOf req) 400, w.store)) := by
  have hmo : req.method ≠ "OPTIONS" := by simp [hm]
  constructor
  · intro fs hf hok
    apply workerFetch_of_route_ok env w req vs _ _ hcfg hmo
    rw [route_eq_applydiff w req _ _ hp hm]
    unfold handleApplyDiff
    simp only [hb, hf, applyLoop_ok w.now w.store fs hok]
  · intro hnone
    apply workerFetch_of_route_ok env w req vs _ _ hcfg hmo
    rw [route_eq_applydiff w req _ _ hp hm]
    unfold handleApplyDiff
    simp only [hb]

/-! ## C5: write/read round-trip -/

theorem siteGet_sitePut (st : Store) (k v ct : String) (now : Nat) :
    siteGet (sitePut st k v ct now) k = some ⟨v, ct, now⟩ := by
  unfold siteGet sitePut
  rw [List.find?_append]
  have h1 : (st.filter (fun e => e.1 != k)).find? (fun e => e.1 == k) = none := by
    rw [List.find?_eq_none]
    intro x hx
    have h2 := (List.mem_filter.mp hx).2
    simpa using h2
  rw [h1]
  simp

/-- C5: writing `{path: p, content: c}` through POST /api/write stores `c`
at `p` with the classified content type and answers `{ok:true, path: p}`;
a subsequent GET /api/read?path=p against the resulting store answers
status 200 with raw body exactly `c` and `Content-Type` equal to the
classifier's result for `p`. -/
theorem c5_write_read (env : Env) (w : World) (req1 req2 : Req)
    (vs : List JsonVal) (v : JsonVal) (p c : String)
    (hcfg : jsonParse (cfgString env) = some (.arr vs))
    (hp1 : req1.path = "/api/write") (hm1 : req1.method = "POST")
    (hb : safeJson req1.body = .ok v)
    (hvp : jsField v "path" = .ok (some (.str p)))
    (hvc : jsField v "content" = .ok (some (.str c)))
    (hpne : p ≠ "")
    (hp2 : req2.path = "/api/read") (hm2 : req2.method = "GET")
    (hq : queryGet req2.query "path" = some p) :
    workerFetch env w req1 =
      .ok (jsonResp (.obj [("ok", .bool true), ("path", .str p)])
        (originAllowed vs (originOf req1)) (originOf req1) 200,
        sitePut w.store p c (contentType p) w.now) ∧
    workerFetch env { w with store := sitePut w.store p c (contentType p) w.now } req2 =
      .ok ({ status := 200,
             headers := corsHeaders (originAllowed vs (originOf req2)) (originOf req2) ++
               [("Content-Type", contentType p)],
             body := .raw c },
           sitePut w.store p c (contentType p) w.now) := by
  have ht : ¬ (truthy (some (.str p)) = false) := by simp [truthy, hpne]
  constructor
  · apply workerFetch_of_route_ok env w req1 vs _ _ hcfg (by simp [hm1])
    rw [route_eq_write w req1 _ _ hp1 hm1]
    unfold handleWrite
    simp only [hb, hvp, hvc, if_neg ht, r2Value]
  · apply workerFetch_of_route_ok env _ req2 vs _ _ hcfg (by simp [hm2])
    rw [route_eq_read _ req2 _ _ hp2 hm2]
    unfold handleRead
    simp only [hq, if_neg hpne, siteGet_sitePut]

/-! ## C6: content-type classifier -/

theorem imageExt_eq_spec (p : String) : imageExt p = imageExtSpec p := by
  simp [imageExt, imageExtSpec, Bool.or_assoc]

/-- C6: the content-type classifier is a pure total function equal to the
spec's first-match-wins chain (`.html`, `.css`, `.js`, then the
case-insensitive image suffixes, else plain text), and maps the five
sample inputs to the five expected results. -/
theorem c6_content_type :
    (∀ p, contentType p = contentTypeSpec p) ∧
    contentType "a.html" = "text/html; charset=utf-8" ∧
    contentType "a.css" = "text/css; charset=utf-8" ∧
    contentType "a.js" = "text/javascript; charset=utf-8" ∧
    contentType "a.PNG" = "image/*" ∧
    contentType "a.txt" = "text/plain; charset=utf-8" := by
  refine ⟨fun p => ?_, by decide, by decide, by decide, by decide, by decide⟩
  simp [contentType, contentTypeSpec, imageExt_eq_spec]

/-! ## C7: upload -/

theorem str_data_append (a b : String) : (a ++ b).data = a.data ++ b.data := by
  cases a
  cases b
  rfl

theorem splitChar_no_sep (sep : Char) (cs : List Char) (h : sep ∉ cs) :
    splitChar sep cs = [cs] := by
  induction cs with
  | nil => rfl
  | cons c rest ih =>
    have hc : c ≠ sep := fun hh => h (hh ▸ List.mem_cons_self c rest)
    have hr : sep ∉ rest := fun hh => h (List.mem_cons_of_mem c hh)
    simp only [splitChar, if_neg hc, ih hr]

theorem splitChar_prefix (sep : Char) (pre xs : List Char)
    (hpre : sep ∉ pre) (hxs : sep ∉ xs) :
    splitChar sep (pre ++ sep :: xs) = [pre, xs] := by
  induction pre with
  | nil =>
    simp [splitChar, splitChar_no_sep sep xs hxs]
  | cons c rest ih =>
    have hc : c ≠ sep := fun hh => hpre (hh ▸ List.mem_cons_self c rest)
    have hr : sep ∉ rest := fun hh => hpre (List.mem_cons_of_mem c hh)
    simp [splitChar, if_neg hc, ih hr]

/-- `("assets/" ++ x).split("/").pop()` recovers `x` whenever `x` has no
slash. -/
theorem lastSeg_assets (x : String) (hx : '/' ∉ x.data) :
    lastSeg ("assets/" ++ x) = x := by
  obtain ⟨d⟩ := x
  show String.mk (((splitChar '/' ("assets/" ++ String.mk d).data).getLast?).getD []) =
    String.mk d
  have h1 : ("assets/" ++ String.mk d).data = ['a', 's', 's', 'e', 't', 's'] ++ '/' :: d := rfl
  rw [h1, splitChar_prefix '/' _ d (by decide) hx]
  rfl

theorem sanChar_ne_slash (c : Char) : sanChar c ≠ '/' := by
  unfold sanChar
  split
  · rename_i h
    intro hc
    subst hc
    revert h
    decide
  · decide

theorem sanitize_no_slash (nm : Option String) : '/' ∉ (sanitize nm).data := by
  have core : ∀ s : String, '/' ∉ (sanitizeStr s).data := by
    intro s hmem
    have hm2 : '/' ∈ s.data.map sanChar := hmem
    obtain ⟨c, _, hc⟩ := List.mem_map.mp hm2
    exact sanChar_ne_slash c hc
  cases nm with
  | none => exact core "file"
  | some s => exact core s

/-- C7: a successful multipart upload stores the file under
`assets/<Date.now()>_<sanitize(name)>` with its declared MIME type
(defaulting to application/octet-stream when empty) and returns that key
together with `url = "/assets/" ++` the last `/`-separated segment of the
key; since neither the timestamp digits nor the sanitized name can contain
a slash, that segment is exactly `<digits>_<sanitized-name>`. -/
theorem c7_upload (env : Env) (w : World) (req : Req) (vs : List JsonVal)
    (nm : Option String) (ty cont : String)
    (fields : List (String × FormEntry))
    (hcfg : jsonParse (cfgString env) = some (.arr vs))
    (hp : req.path = "/api/upload") (hm : req.method = "POST")
    (hct : strStartsWith ((headerGet req.headers "Content-Type").getD "")
      "multipart/form-data" = true)
    (hform : req.form = .ok fields)
    (hfile : formGet fields "file" = some (.file nm ty cont)) :
    workerFetch env w req =
      .ok (jsonResp
        (.obj [("ok", .bool true),
               ("key", .str ("assets/" ++ toString w.now ++ "_" ++ sanitize nm)),
               ("url", .str ("/assets/" ++
                 lastSeg ("assets/" ++ toString w.now ++ "_" ++ sanitize nm)))])
        (originAllowed vs (originOf req)) (originOf req) 200,
        sitePut w.store ("assets/" ++ toString w.now ++ "_" ++ sanitize nm) cont
          (if ty = "" then "application/octet-stream" else ty) w.now) ∧
    ('/' ∉ (toString w.now).data →
      lastSeg ("assets/" ++ toString w.now ++ "_" ++ sanitize nm) =
        toString w.now ++ "_" ++ sanitize nm) := by
  constructor
  · apply workerFetch_of_route_ok env w req vs _ _ hcfg (by simp [hm])
    rw [route_eq_upload w req _ _ hp hm]
    unfold handleUpload
    have hcf : ¬ (strStartsWith ((headerGet req.headers "Content-Type").getD "")
        "multipart/form-data" = false) := by simp [hct]
    simp only [if_neg hcf, hform, hfile]
  · intro hnow
    have he : (toString w.now ++ "_" ++ sanitize nm).data =
        (toString w.now).data ++ '_' :: (sanitize nm).data := by
      rw [str_data_append, str_data_append]
      simp
    have hx : '/' ∉ (toString w.now ++ "_" ++ sanitize nm).data := by
      rw [he]
      intro hmem
      rcases List.mem_append.mp hmem with h1 | h1
      · exact hnow h1
      · rcases List.mem_cons.mp h1 with h2 | h2
        · exact absurd h2 (by decide)
        · exact sanitize_no_slash nm h2
    exact lastSeg_assets _ hx

/-! ## C8: list -/

/-- The field names of a JSON object (empty for non-objects). -/
def objKeys : JsonVal → List String
  | .obj fs => fs.map (fun p => p.1)
  | _ => []

/-- C8 counterexample: listing a store holding one blob `"a"` produces an
item whose fields are `key`, `size` and `uploaded` — there is no
`uploadedAt` field, and the timestamp is delivered as the backend value
converted to an ISO string rather than relayed untouched. -/
theorem c8_counterexample :
    workerFetch { ALLOW_ORIGINS := none }
      { store := [("a", ⟨"hi", "text/plain; charset=utf-8", 0⟩)], now := 0,
        outFetch := fun _ => .error "x" }
      { method := "GET", path := "/api/list", query := [], headers := [],
        body := "", form := .ok [] } =
      .ok ({ status := 200,
             headers := [("Access-Control-Allow-Methods", "GET,POST,OPTIONS"),
                         ("Access-Control-Allow-Headers", "content-type, authorization"),
                         ("Access-Control-Max-Age", "86400"),
                         ("Content-Type", "application/json")],
             body := .json (.obj [("ok", .bool true),
               ("items", .arr [.obj [("key", .str "a"), ("size", .num "2"),
                                     ("uploaded", .str "1970-01-01T00:00:00.000Z")]])]) },
           [("a", ⟨"hi", "text/plain; charset=utf-8", 0⟩)]) ∧
    objKeys (.obj [("key", .str "a"), ("size", .num "2"),
                   ("uploaded", .str "1970-01-01T00:00:00.000Z")]) =
      ["key", "size", "uploaded"] :=
  ⟨rfl, rfl⟩

/-- C8 (amended): GET /api/list relays, in backend order and without
re-sorting, exactly the store entries whose key starts with the `prefix`
query parameter (default `""`), each projected to
`{ key, size, uploaded }` — the timestamp field is named `uploaded`, not
`uploadedAt`, and holds the backend timestamp converted to an ISO-8601
string. -/
theorem c8_list_amended (env : Env) (w : World) (req : Req) (vs : List JsonVal)
    (hcfg : jsonParse (cfgString env) = some (.arr vs))
    (hp : req.path = "/api/list") (hm : req.method = "GET") :
    workerFetch env w req =
      .ok (jsonResp
        (.obj [("ok", .bool true),
               ("items", .arr
                 ((w.store.filter
                   (fun e => strStartsWith e.1 ((queryGet req.query "prefix").getD ""))).map
                   mkListItem))])
        (originAllowed vs (originOf req)) (originOf req) 200, w.store) := by
  apply workerFetch_of_route_ok env w req vs _ _ hcfg (by simp [hm])
  rw [route_eq_list w req _ _ hp hm]
  rfl

/-! ## C9: generate-html -/

/-- The text that ends up inside the `<h2>` before HTML-escaping:
`prompt || "New Section"` for a string-or-absent prompt. -/
def promptText : Option String → String
  | some p => if p = "" then "New Section" else p
  | none => "New Section"

/-- C9: POST /api/generate-html deterministically answers the placeholder
`{ok, html, css, js}` with no model call and no store access: `html`
embeds the HTML-escaped prompt (the literal `"New Section"` when the
prompt is empty or absent) inside the comment-tagged section, `css` is the
fixed rule string and `js` is empty. -/
theorem c9_generate_html (env : Env) (w : World) (req : Req) (vs : List JsonVal)
    (v : JsonVal) (pOpt sOpt : Option String)
    (hcfg : jsonParse (cfgString env) = some (.arr vs))
    (hp : req.path = "/api/generate-html") (hm : req.method = "POST")
    (hb : safeJson req.body = .ok v)
    (hprompt : jsField v "prompt" = .ok (pOpt.map .str))
    (hsect : jsField v "section" = .ok (sOpt.map .str)) :
    workerFetch env w req =
      .ok (jsonResp
        (.obj [("ok", .bool true),
               ("html", .str (genHtml (sOpt.getD "page")
                 (escapeHtml (promptText pOpt)))),
               ("css", .str cssConst), ("js", .str "")])
        (originAllowed vs (originOf req)) (originOf req) 200, w.store) := by
  apply workerFetch_of_route_ok env w req vs _ _ hcfg (by simp [hm])
  rw [route_eq_generate w req _ _ hp hm]
  unfold handleGenerateHtml
  cases pOpt with
  | none =>
    cases sOpt <;> simp [hb, hprompt, hsect, truthy, promptText, jsDisplay]
  | some p =>
    by_cases hp0 : p = ""
    · subst hp0
      cases sOpt <;> simp [hb, hprompt, hsect, truthy, promptText, jsDisplay]
    · cases sOpt <;>
        simp [hb, hprompt, hsect, truthy, promptText, jsDisplay, hp0]

/-! ## C10: body parsing across the JSON POST routes -/

/-- C10: on each JSON POST route, an entirely empty body acts as the empty
object — producing the route's normal missing-field 400 answer (or, for
generate-html, its defaults) — while a non-empty body that fails to parse
as JSON throws inside the handler and surfaces as the generic
`{ok:false, error:"server_error", detail}` 500 envelope, not a 400. -/
theorem c10_body_parsing (env : Env) (w : World) (req : Req) (vs : List JsonVal)
    (hcfg : jsonParse (cfgString env) = some (.arr vs))
    (hm : req.method = "POST") :
    (req.path = "/api/write" → req.body = "" →
      workerFetch env w req =
        .ok (jsonResp (.obj [("ok", .bool false), ("error", .str "path required")])
          (originAllowed vs (originOf req)) (originOf req) 400, w.store)) ∧
    (req.path = "/api/apply-diff" → req.body = "" →
      workerFetch env w req =
        .ok (jsonResp
          (.obj [("ok", .bool false),
                 ("error", .str "Provide files[] or unified diff (TODO)")])
          (originAllowed vs (originOf req)) (originOf req) 400, w.store)) ∧
    (req.path = "/api/generate-html" → req.body = "" →
      workerFetch env w req =
        .ok (jsonResp
          (.obj [("ok", .bool true),
                 ("html", .str (genHtml "page" (escapeHtml "New Section"))),
                 ("css", .str cssConst), ("js", .str "")])
          (originAllowed vs (originOf req)) (originOf req) 200, w.store)) ∧
    (req.path = "/api/analyze-cors" → req.body = "" →
      workerFetch env w req =
        .ok (jsonResp (.obj [("ok", .bool false), ("error", .str "url required")])
          (originAllowed vs (originOf req)) (originOf req) 400, w.store)) ∧
    ((req.path = "/api/write" ∨ req.path = "/api/apply-diff" ∨
      req.path = "/api/generate-html" ∨ req.path = "/api/analyze-cors") →
      req.body ≠ "" → jsonParse req.body = none →
      workerFetch env w req =
        .ok (jsonResp
          (.obj [("ok", .bool false), ("error", .str "server_error"),
                 ("detail", .str jsonErrMsg)])
          (originAllowed vs (originOf req)) (originOf req) 500, w.store)) := by
  have hmo : req.method ≠ "OPTIONS" := by simp [hm]
  refine ⟨?_, ?_, ?_, ?_, ?_⟩
  · intro hp hbody
    apply workerFetch_of_route_ok env w req vs _ _ hcfg hmo
    rw [route_eq_write w req _ _ hp hm]
    unfold handleWrite
    simp [safeJson, hbody, jsField, objField, truthy]
  · intro hp hbody
    apply workerFetch_of_route_ok env w req vs _ _ hcfg hmo
    rw [route_eq_applydiff w req _ _ hp hm]
    unfold handleApplyDiff
    simp [safeJson, hbody, optChainField, objField]
  · intro hp hbody
    apply workerFetch_of_route_ok env w req vs _ _ hcfg hmo
    rw [route_eq_generate w req _ _ hp hm]
    unfold handleGenerateHtml
    simp [safeJson, hbody, jsField, objField, truthy, jsDisplay]
  · intro hp hbody
    apply workerFetch_of_route_ok env w req vs _ _ hcfg hmo
    rw [route_eq_analyze w req _ _ hp hm]
    unfold handleAnalyzeCors
    simp [safeJson, hbody, jsField, objField, truthy]
  · intro hps hne hbad
    have hsj : safeJson req.body = .error jsonErrMsg := by
      simp [safeJson, hne, hbad]
    rcases hps with hp | hp | hp | hp
    · apply workerFetch_of_route_error env w req vs jsonErrMsg hcfg hmo
      rw [route_eq_write w req _ _ hp hm]
      unfold handleWrite
      simp [hsj]
    · apply workerFetch_of_route_error env w req vs jsonErrMsg hcfg hmo
      rw [route_eq_applydiff w req _ _ hp hm]
      unfold handleApplyDiff
      simp [hsj]
    · apply workerFetch_of_route_error env w req vs jsonErrMsg hcfg hmo
      rw [route_eq_generate w req _ _ hp hm]
      unfold handleGenerateHtml
      simp [hsj]
    · apply workerFetch_of_route_error env w req vs jsonErrMsg hcfg hmo
      rw [route_eq_analyze w req _ _ hp hm]
      unfold handleAnalyzeCors
      simp [hsj]

/-! ## Concrete fixtures and witnesses -/

/-- A small concrete world for witnesses. -/
def wWit : World :=
  { store := [], now := 1700000000123,
    outFetch := fun _ => .error "TypeError: Failed to fetch" }

/-- A configuration whose allowlist holds exactly `https://a.example`. -/
def envWit : Env := { ALLOW_ORIGINS := some "[\"https://a.example\"]" }

def reqWit1 : Req :=
  { method := "GET", path := "/nope", query := [],
    headers := [("Origin", "https://a.example")], body := "", form := .ok [] }

def respWit1 : ResponseB :=
  { status := 404,
    headers := [("Access-Control-Allow-Methods", "GET,POST,OPTIONS"),
                ("Access-Control-Allow-Headers", "content-type, authorization"),
                ("Access-Control-Max-Age", "86400"),
                ("Access-Control-Allow-Origin", "https://a.example"),
                ("Content-Type", "application/json")],
    body := .json (.obj [("ok", .bool false), ("error", .str "Route not found")]) }

theorem c1_cors_invariant_witness :
    lookupHeader respWit1.headers "Access-Control-Allow-Methods" =
      some "GET,POST,OPTIONS" ∧
    lookupHeader respWit1.headers "Access-Control-Allow-Headers" =
      some "content-type, authorization" ∧
    lookupHeader respWit1.headers "Access-Control-Max-Age" = some "86400" ∧
    lookupHeader respWit1.headers "Access-Control-Allow-Origin" =
      some "https://a.example" :=
  c1_cors_invariant envWit wWit reqWit1 [.str "https://a.example"] respWit1 []
    (by rfl) (by decide) (by rfl)

def reqWit3 : Req :=
  { method := "OPTIONS", path := "/does-not-exist", query := [],
    headers := [("Origin", "https://a.example")], body := "", form := .ok [] }

theorem c3_preflight_witness :
    workerFetch envWit wWit reqWit3 =
      .ok ({ status := 204, headers := corsHeaders true "https://a.example",
             body := .empty }, []) :=
  c3_preflight envWit wWit reqWit3 [.str "https://a.example"] (by rfl) (by rfl)

def reqWit4 : Req :=
  { method := "POST", path := "/api/apply-diff", query := [],
    headers := [("Origin", "https://a.example")],
    body := "\x7b\"files\":[\x7b\"path\":\"a\",\"content\":\"1\"\x7d,\x7b\"content\":\"2\"\x7d]\x7d",
    form := .ok [] }

theorem c4_apply_diff_witness :
    workerFetch envWit wWit reqWit4 =
      .ok (jsonResp (.obj [("ok", .bool true), ("applied", .num "2")])
        true "https://a.example" 200,
        [("a", ⟨"1", "text/plain; charset=utf-8", 1700000000123⟩)]) :=
  (c4_apply_diff envWit wWit reqWit4 [.str "https://a.example"]
    (.obj [("files", .arr [.obj [("path", .str "a"), ("content", .str "1")],
                           .obj [("content", .str "2")]])])
    (by rfl) (by rfl) (by rfl) (by rfl)).1
    [.obj [("path", .str "a"), ("content", .str "1")],
     .obj [("content", .str "2")]]
    (by rfl)
    (by
      intro f hf
      simp only [List.mem_cons, List.not_mem_nil, or_false] at hf
      rcases hf with rfl | rfl
      · exact ⟨some (.str "a"), rfl,
          Or.inr ⟨"a", rfl, some (.str "1"), rfl, "1", rfl⟩⟩
      · exact ⟨none, rfl, Or.inl rfl⟩)

def reqWit5a : Req :=
  { method := "POST", path := "/api/write", query := [],
    headers := [("Origin", "https://a.example")],
    body := "\x7b\"path\":\"x.html\",\"content\":\"<p>hi</p>\"\x7d", form := .ok [] }

def reqWit5b : Req :=
  { method := "GET", path := "/api/read", query := [("path", "x.html")],
    headers := [("Origin", "https://a.example")], body := "", form := .ok [] }

theorem c5_write_read_witness :
    workerFetch envWit wWit reqWit5a =
      .ok (jsonResp (.obj [("ok", .bool true), ("path", .str "x.html")])
        true "https://a.example" 200,
        [("x.html", ⟨"<p>hi</p>", "text/html; charset=utf-8", 1700000000123⟩)]) ∧
    workerFetch envWit
      { wWit with store :=
          [("x.html", ⟨"<p>hi</p>", "text/html; charset=utf-8", 1700000000123⟩)] }
      reqWit5b =
      .ok ({ status := 200,
             headers := corsHeaders true "https://a.example" ++
               [("Content-Type", "text/html; charset=utf-8")],
             body := .raw "<p>hi</p>" },
           [("x.html", ⟨"<p>hi</p>", "text/html; charset=utf-8", 1700000000123⟩)]) :=
  c5_write_read envWit wWit reqWit5a reqWit5b [.str "https://a.example"]
    (.obj [("path", .str "x.html"), ("content", .str "<p>hi</p>")])
    "x.html" "<p>hi</p>"
    (by rfl) (by rfl) (by rfl) (by rfl) (by rfl) (by rfl) (by decide)
    (by rfl) (by rfl) (by rfl)

def reqWit7 : Req :=
  { method := "POST", path := "/api/upload", query := [],
    headers := [("Origin", "https://a.example"),
                ("Content-Type", "multipart/form-data; boundary=x")],
    body := "",
    form := .ok [("file", .file (some "my photo.png") "image/png" "IMG")] }

theorem c7_upload_witness :
    (workerFetch envWit wWit reqWit7 =
      .ok (jsonResp
        (.obj [("ok", .bool true),
               ("key", .str "assets/1700000000123_my_photo.png"),
               ("url", .str "/assets/1700000000123_my_photo.png")])
        true "https://a.example" 200,
        [("assets/1700000000123_my_photo.png", ⟨"IMG", "image/png", 1700000000123⟩)])) ∧
    lastSeg "assets/1700000000123_my_photo.png" = "1700000000123_my_photo.png" :=
  ⟨(c7_upload envWit wWit reqWit7 [.str "https://a.example"]
      (some "my photo.png") "image/png" "IMG"
      [("file", .file (some "my photo.png") "image/png" "IMG")]
      (by rfl) (by rfl) (by rfl) (by rfl) (by rfl) (by rfl)).1,
   (c7_upload envWit wWit reqWit7 [.str "https://a.example"]
      (some "my photo.png") "image/png" "IMG"
      [("file", .file (some "my photo.png") "image/png" "IMG")]
      (by rfl) (by rfl) (by rfl) (by rfl) (by rfl) (by rfl)).2 (by decide)⟩

def wWit8 : World :=
  { store := [("a1", ⟨"hi", "text/plain; charset=utf-8", 1000⟩),
              ("b2", ⟨"there", "text/plain; charset=utf-8", 2000⟩)],
    now := 0, outFetch := fun _ => .error "x" }

def reqWit8 : Req :=
  { method := "GET", path := "/api/list", query := [("prefix", "a")],
    headers := [], body := "", form := .ok [] }

theorem c8_list_amended_witness :
    workerFetch { ALLOW_ORIGINS := none } wWit8 reqWit8 =
      .ok (jsonResp
        (.obj [("ok", .bool true),
               ("items", .arr [.obj [("key", .str "a1"), ("size", .num "2"),
                 ("uploaded", .str "1970-01-01T00:00:01.000Z")]])])
        false "" 200, wWit8.store) :=
  c8_list_amended { ALLOW_ORIGINS := none } wWit8 reqWit8 []
    (by rfl) (by rfl) (by rfl)

def reqWit9 : Req :=
  { method := "POST", path := "/api/generate-html", query := [],
    headers := [("Origin", "https://a.example")],
    body := "\x7b\"prompt\":\"<script>\"\x7d", form := .ok [] }

theorem c9_generate_html_witness :
    workerFetch envWit wWit reqWit9 =
      .ok (jsonResp
        (.obj [("ok", .bool true),
               ("html", .str ("<!-- generated: page -->\n<section class=\"card\">\n  <h2>&lt;script&gt;</h2>\n  <p>This is a generated placeholder. Replace with model output when keys are set.</p>\n</section>")),
               ("css", .str cssConst), ("js", .str "")])
        true "https://a.example" 200, []) :=
  c9_generate_html envWit wWit reqWit9 [.str "https://a.example"]
    (.obj [("prompt", .str "<script>")]) (some "<script>") none
    (by rfl) (by rfl) (by rfl) (by rfl) (by rfl) (by rfl)

def reqWit10a : Req :=
  { method := "POST", path := "/api/write", query := [],
    headers := [("Origin", "https://a.example")], body := "", form := .ok [] }

def reqWit10b : Req :=
  { method := "POST", path := "/api/write", query := [],
    headers := [("Origin", "https://a.example")], body := "not json\x7b",
    form := .ok [] }

theorem c10_body_parsing_witness :
    workerFetch envWit wWit reqWit10a =
      .ok (jsonResp (.obj [("ok", .bool false), ("error", .str "path required")])
        true "https://a.example" 400, []) ∧
    workerFetch envWit wWit reqWit10b =
      .ok (jsonResp
        (.obj [("ok", .bool false), ("error", .str "server_error"),
               ("detail", .str jsonErrMsg)])
        true "https://a.example" 500, []) :=
  ⟨(c10_body_parsing envWit wWit reqWit10a [.str "https://a.example"]
      (by rfl) (by rfl)).1 (by rfl) (by rfl),
   (c10_body_parsing envWit wWit reqWit10b [.str "https://a.example"]
      (by rfl) (by rfl)).2.2.2.2 (Or.inl (by rfl)) (by decide) (by rfl)⟩

end MBWorker
